import Mathlib

/-!
Verification of the break-reminder scheduler (`break_reminder.py`).

The program is a GLib event-driven break reminder built from a pausable
`Timer` class and a `BreakReminder` scheduler that owns three timers
(work, break-credit, postpone), reacts to idle-start/idle-end events from
an idle monitor, and shows/closes a desktop notification.

Shallow embedding:
  * `Timer` mirrors the Python `Timer` class field by field; `_source`
    (a GLib source id or `None`) is modelled by the boolean `source`
    (whether a source is scheduled), which is exactly what `is_running`
    observes.  Monotonic timestamps are `Int` milliseconds.
  * `assert` statements are modelled by returning `none` (`Option`):
    a `none` result is precisely an assertion failure aborting the handler.
  * The notification is modelled by the boolean `prompt_visible`; the
    one-shot user-active watch registered by `_on_idle_start` is modelled
    by the flag `is_idle` (a watch is registered) together with
    `was_working` (the context value carried by the watch).
  * Event feasibility (`feasible`) captures when the environment can
    deliver an event: a timer expiry only fires while its GLib source is
    scheduled, an idle-end only fires while the one-shot active watch is
    registered (so idle-start/idle-end strictly alternate), and the user
    can only dismiss or act on a notification that is on screen.
-/

/-- `Timer.__init__(interval_ms, callback_)`: the timer state.
`source : Bool` models `_source is not None`. -/
structure Timer where
  interval_ms : Int
  start_timestamp_ms : Option Int
  remaining_ms : Int
  source : Bool
deriving DecidableEq

/-- `Timer(interval_ms, ...)`: created stopped with `remaining = interval`. -/
def Timer.new (interval_ms : Int) : Timer :=
  { interval_ms := interval_ms
    start_timestamp_ms := none
    remaining_ms := interval_ms
    source := false }

/-- `Timer.is_running`: whether a GLib source is scheduled. -/
def Timer.is_running (t : Timer) : Bool :=
  t.source

/-- `Timer.start(reset=False)`.  `assert not self.is_running` is modelled by
returning `none` when the timer is already running.  `now` is the value of
`get_timestamp_ms()`. -/
def Timer.start (t : Timer) (reset : Bool) (now : Int) : Option Timer :=
  if t.is_running then none
  else
    some { t with
      remaining_ms := if reset then t.interval_ms else t.remaining_ms
      start_timestamp_ms := some now
      source := true }

/-- `Timer.stop()`.  `assert self.is_running` is modelled by returning `none`
when the timer is not running.  `remaining = max(remaining - elapsed, 0)`. -/
def Timer.stop (t : Timer) (now : Int) : Option Timer :=
  if t.is_running then
    some { t with
      source := false
      remaining_ms := max (t.remaining_ms - (now - t.start_timestamp_ms.getD 0)) 0 }
  else none

/-- The state change performed by `Timer._on_timeout_expiry` on the timer
itself: `self._source = None; self._remaining_ms = self._interval_ms`. -/
def Timer.expire (t : Timer) : Timer :=
  { t with source := false, remaining_ms := t.interval_ms }

/-- `Timer._on_timeout_expiry`, generic in the registered callback `cb`
acting on an environment `env`: the timer clears its source and resets
`remaining` to the full interval, then invokes the callback once, and
returns `False` (the GLib source is not re-armed). -/
def Timer.onTimeoutExpiry {α : Type} (t : Timer) (cb : α → α) (env : α) :
    Timer × α × Bool :=
  (t.expire, cb env, false)

/-- Trace semantics of a single timer constructed with interval `i`:
the states reachable by any sequence of `start`/`stop` calls that does not
trip an assertion, with a monotonic clock (the `now` passed to `stop` is
not before the recorded start timestamp), and natural expiries (which only
happen while running). -/
inductive Timer.Reach (i : Int) : Timer → Prop
  | new : Timer.Reach i (Timer.new i)
  | start (t : Timer) (reset : Bool) (now : Int) (t' : Timer) :
      Timer.Reach i t → Timer.start t reset now = some t' → Timer.Reach i t'
  | stop (t : Timer) (now : Int) (t' : Timer) :
      Timer.Reach i t → t.start_timestamp_ms.getD 0 ≤ now →
      Timer.stop t now = some t' → Timer.Reach i t'
  | expire (t : Timer) :
      Timer.Reach i t → t.is_running = true → Timer.Reach i t.expire

/-- The break scheduler state (`BreakReminder`).  `prompt_visible` models
whether the notification is on screen; `is_idle` models whether the
one-shot user-active watch is registered; `was_working` is the
`work_timer_was_running` context value carried by that watch. -/
structure BreakReminder where
  work_timer : Timer
  break_timer : Timer
  postpone_timer : Timer
  prompt_visible : Bool
  is_idle : Bool
  was_working : Bool
deriving DecidableEq

/-- `BreakReminder.__init__`: builds the three timers — note the break
timer's interval is `break_duration_ms - idle_timeout_ms`, with no
clamping — and starts the work timer (without reset, on a fresh timer). -/
def BreakReminder.init (break_duration_ms work_duration_ms postpone_duration_ms
    idle_timeout_ms now : Int) : Option BreakReminder :=
  match (Timer.new work_duration_ms).start false now with
  | none => none
  | some w =>
    some { work_timer := w
           break_timer := Timer.new (break_duration_ms - idle_timeout_ms)
           postpone_timer := Timer.new postpone_duration_ms
           prompt_visible := false
           is_idle := false
           was_working := false }

/-- `BreakReminder._on_work_timer_expired`: `self._notification.show()`. -/
def BreakReminder.onWorkTimerExpired (s : BreakReminder) : BreakReminder :=
  { s with prompt_visible := true }

/-- `BreakReminder._on_break_timer_expired`: close the notification, and
stop the postpone timer if it is running. -/
def BreakReminder.onBreakTimerExpired (s : BreakReminder) (now : Int) :
    Option BreakReminder :=
  let s1 := { s with prompt_visible := false }
  if s1.postpone_timer.is_running then
    match s1.postpone_timer.stop now with
    | none => none
    | some p => some { s1 with postpone_timer := p }
  else some s1

/-- `BreakReminder._on_idle_start`: record `work_timer_was_running`, stop
the work timer if running, start the break timer with reset, and register
the one-shot user-active watch carrying `work_timer_was_running`. -/
def BreakReminder.onIdleStart (s : BreakReminder) (now : Int) :
    Option BreakReminder :=
  let work_timer_was_running := s.work_timer.is_running
  match (if s.work_timer.is_running then s.work_timer.stop now
         else some s.work_timer) with
  | none => none
  | some w =>
    match s.break_timer.start true now with
    | none => none
    | some b =>
      some { s with
        work_timer := w
        break_timer := b
        is_idle := true
        was_working := work_timer_was_running }

/-- `BreakReminder._on_idle_end(.., work_timer_was_running)`: if the break
timer is running, stop it and restart the work timer (no reset) only when
`work_timer_was_running`; otherwise start the work timer with reset.
Firing consumes the one-shot watch (`is_idle := false`). -/
def BreakReminder.onIdleEnd (s : BreakReminder) (work_timer_was_running : Bool)
    (now : Int) : Option BreakReminder :=
  if s.break_timer.is_running then
    match s.break_timer.stop now with
    | none => none
    | some b =>
      if work_timer_was_running then
        match s.work_timer.start false now with
        | none => none
        | some w =>
          some { s with break_timer := b, work_timer := w, is_idle := false }
      else
        some { s with break_timer := b, is_idle := false }
  else
    match s.work_timer.start true now with
    | none => none
    | some w => some { s with work_timer := w, is_idle := false }

/-- `BreakReminder._postpone_break`: `self._postpone_timer.start(reset=True)`. -/
def BreakReminder.postponeBreak (s : BreakReminder) (now : Int) :
    Option BreakReminder :=
  match s.postpone_timer.start true now with
  | none => none
  | some p => some { s with postpone_timer := p }

/-- `BreakReminder._on_postpone_expired`: `self._notification.show()`. -/
def BreakReminder.onPostponeExpired (s : BreakReminder) : BreakReminder :=
  { s with prompt_visible := true }

/-- `BreakReminder._on_notification_closed`: return early unless the closed
reason is `NOTIFY_CLOSED_REASON_DISMISSED` (2); otherwise postpone. -/
def BreakReminder.onNotificationClosed (s : BreakReminder) (reason : Int)
    (now : Int) : Option BreakReminder :=
  if reason ≠ 2 then some s
  else s.postponeBreak now

/-- `BreakReminder._on_notification_postponed`: close the notification,
then postpone. -/
def BreakReminder.onNotificationPostponed (s : BreakReminder) (now : Int) :
    Option BreakReminder :=
  ({ s with prompt_visible := false } : BreakReminder).postponeBreak now

/-- The events the environment can deliver to the scheduler.  Expiry events
for the break timer and every handler that calls `Timer.stop`/`start`
carry the current monotonic time. -/
inductive Event where
  | workExpiry : Event
  | breakExpiry (now : Int) : Event
  | postponeExpiry : Event
  | idleStart (now : Int) : Event
  | idleEnd (now : Int) : Event
  | notifClosed (reason now : Int) : Event
  | postponeAction (now : Int) : Event
deriving DecidableEq

/-- Dispatch one event.  A timer-expiry event first applies
`Timer._on_timeout_expiry`'s state change to the expiring timer, then runs
the registered handler.  A `notifClosed` event means the notification is no
longer on screen (the `closed` signal), then runs the handler.  `none`
models an assertion failure inside the handler. -/
def step (s : BreakReminder) (e : Event) : Option BreakReminder :=
  match e with
  | .workExpiry =>
      some (BreakReminder.onWorkTimerExpired
        { s with work_timer := s.work_timer.expire })
  | .breakExpiry now =>
      BreakReminder.onBreakTimerExpired
        { s with break_timer := s.break_timer.expire } now
  | .postponeExpiry =>
      some (BreakReminder.onPostponeExpired
        { s with postpone_timer := s.postpone_timer.expire })
  | .idleStart now => s.onIdleStart now
  | .idleEnd now => s.onIdleEnd s.was_working now
  | .notifClosed reason now =>
      BreakReminder.onNotificationClosed
        { s with prompt_visible := false } reason now
  | .postponeAction now => s.onNotificationPostponed now

/-- When the environment can deliver an event: a timer expires only while
its source is scheduled; idle-start fires only while not idle and the
one-shot idle-end watch fires only while idle (so the two strictly
alternate, starting with idle-start); the user can dismiss or invoke the
postpone action only on a visible notification (a `closed` signal with any
other reason, e.g. a programmatic close, can arrive at any time). -/
def feasible (s : BreakReminder) (e : Event) : Prop :=
  match e with
  | .workExpiry => s.work_timer.is_running = true
  | .breakExpiry _ => s.break_timer.is_running = true
  | .postponeExpiry => s.postpone_timer.is_running = true
  | .idleStart _ => s.is_idle = false
  | .idleEnd _ => s.is_idle = true
  | .notifClosed reason _ => reason = 2 → s.prompt_visible = true
  | .postponeAction _ => s.prompt_visible = true

instance (s : BreakReminder) (e : Event) : Decidable (feasible s e) := by
  unfold feasible
  cases e <;> infer_instance

/-- Scheduler states reachable from `BreakReminder.__init__` by feasible
events whose handlers did not trip an assertion. -/
inductive Reachable : BreakReminder → Prop
  | base (b w p i now : Int) (s : BreakReminder) :
      BreakReminder.init b w p i now = some s → Reachable s
  | step (s : BreakReminder) (e : Event) (s' : BreakReminder) :
      Reachable s → feasible s e → step s e = some s' → Reachable s'

/-- The inductive invariant of the scheduler: the work timer is stopped
while idle; the break timer runs only while idle; the work and postpone
timers never run together; while the prompt is visible neither the
postpone timer nor the work timer runs; while idle with `was_working`
carried by the watch, the postpone timer is stopped and the prompt hidden;
and once the break timer has fired during an idle episode, the postpone
timer is stopped and the prompt hidden. -/
def SchedInv (s : BreakReminder) : Prop :=
  (s.is_idle = true → s.work_timer.is_running = false) ∧
  (s.break_timer.is_running = true → s.is_idle = true) ∧
  (s.work_timer.is_running = true → s.postpone_timer.is_running = false) ∧
  (s.prompt_visible = true →
    s.postpone_timer.is_running = false ∧ s.work_timer.is_running = false) ∧
  (s.is_idle = true → s.was_working = true →
    s.postpone_timer.is_running = false ∧ s.prompt_visible = false) ∧
  (s.is_idle = true → s.break_timer.is_running = false →
    s.postpone_timer.is_running = false ∧ s.prompt_visible = false)

theorem Timer.start_eq_some (t : Timer) (reset : Bool) (now : Int)
    (h : t.is_running = false) :
    t.start reset now = some { t with
      remaining_ms := if reset then t.interval_ms else t.remaining_ms
      start_timestamp_ms := some now
      source := true } := by
  simp [Timer.start, h]

theorem Timer.stop_eq_some (t : Timer) (now : Int) (h : t.is_running = true) :
    t.stop now = some { t with
      source := false
      remaining_ms := max (t.remaining_ms - (now - t.start_timestamp_ms.getD 0)) 0 } := by
  simp [Timer.stop, h]

theorem BreakReminder.init_eq_some (b w p i now : Int) :
    BreakReminder.init b w p i now =
      some { work_timer := { interval_ms := w, start_timestamp_ms := some now,
                             remaining_ms := w, source := true }
             break_timer := Timer.new (b - i)
             postpone_timer := Timer.new p
             prompt_visible := false
             is_idle := false
             was_working := false } := by
  simp [BreakReminder.init, Timer.new, Timer.start, Timer.is_running]

/-- C1 counterexample: with `breakDuration = 1` and `idleDetectionThreshold
= 2` (so threshold ≥ break duration), `BreakReminder.__init__` constructs
the break timer with interval `-1`, not the claimed clamped value `0`. -/
theorem C1_counterexample :
    (2 : Int) ≥ 1 ∧
    Option.map (fun s => s.break_timer.interval_ms)
      (BreakReminder.init 1 10 5 2 0) = some (-1) ∧
    (-1 : Int) ≠ 0 := by
  decide

/-- C1 (amended): the break-credit timer is constructed with interval
`breakDuration - idleDetectionThreshold`, with no clamping: whenever
`idleDetectionThreshold ≥ breakDuration` the interval is ≤ 0 (zero only
when they are equal, strictly negative otherwise). -/
theorem C1_break_timer_interval (b w p i now : Int) (s : BreakReminder)
    (h : BreakReminder.init b w p i now = some s) :
    s.break_timer.interval_ms = b - i ∧
    (b ≤ i → s.break_timer.interval_ms ≤ 0) ∧
    (b < i → s.break_timer.interval_ms < 0) := by
  rw [BreakReminder.init_eq_some] at h
  cases h
  refine ⟨rfl, ?_, ?_⟩ <;> simp [Timer.new] <;> omega

theorem C1_witness :
    ∃ s, BreakReminder.init 1 10 5 2 0 = some s ∧
      (s.break_timer.interval_ms = 1 - 2 ∧
       ((1 : Int) ≤ 2 → s.break_timer.interval_ms ≤ 0) ∧
       ((1 : Int) < 2 → s.break_timer.interval_ms < 0)) := by
  refine ⟨_, BreakReminder.init_eq_some 1 10 5 2 0, ?_⟩
  exact C1_break_timer_interval 1 10 5 2 0 _ (BreakReminder.init_eq_some 1 10 5 2 0)

/-- C7: on natural expiry of a running timer, `_on_timeout_expiry` invokes
the registered callback exactly once (the environment after the event is
one application of the callback), leaves the timer not running with
`remaining` reset to the full interval, and returns `False` so the GLib
source is not re-armed. -/
theorem C7_expiry_callback_once {α : Type} (t : Timer) (cb : α → α) (env : α)
    (h : t.is_running = true) :
    (t.onTimeoutExpiry cb env).2.1 = cb env ∧
    (t.onTimeoutExpiry cb env).1.is_running = false ∧
    (t.onTimeoutExpiry cb env).1.remaining_ms = t.interval_ms ∧
    (t.onTimeoutExpiry cb env).2.2 = false := by
  simp [Timer.onTimeoutExpiry, Timer.expire, Timer.is_running]

theorem C7_witness :
    (({ interval_ms := 10, start_timestamp_ms := some 0, remaining_ms := 4,
        source := true } : Timer).onTimeoutExpiry Nat.succ 0).2.1 = Nat.succ 0 ∧
    (({ interval_ms := 10, start_timestamp_ms := some 0, remaining_ms := 4,
        source := true } : Timer).onTimeoutExpiry Nat.succ 0).1.is_running = false ∧
    (({ interval_ms := 10, start_timestamp_ms := some 0, remaining_ms := 4,
        source := true } : Timer).onTimeoutExpiry Nat.succ 0).1.remaining_ms = 10 ∧
    (({ interval_ms := 10, start_timestamp_ms := some 0, remaining_ms := 4,
        source := true } : Timer).onTimeoutExpiry Nat.succ 0).2.2 = false :=
  C7_expiry_callback_once _ Nat.succ 0 rfl

theorem timer_reach_bounds (i : Int) (t : Timer) (hpos : 0 < i)
    (hr : Timer.Reach i t) :
    0 ≤ t.remaining_ms ∧ t.remaining_ms ≤ t.interval_ms ∧ t.interval_ms = i := by
  induction hr with
  | new => refine ⟨?_, ?_, rfl⟩ <;> simp [Timer.new] <;> omega
  | start t reset now t' _ hstart ih =>
      obtain ⟨ha, hb, hc⟩ := ih
      rw [Timer.start] at hstart
      split at hstart
      · exact absurd hstart (by simp)
      · cases hstart
        cases reset <;> simp_all <;> omega
  | stop t now t' _ hts hstop ih =>
      obtain ⟨ha, hb, hc⟩ := ih
      rw [Timer.stop] at hstop
      split at hstop
      · cases hstop
        refine ⟨?_, ?_, hc⟩ <;> simp <;> omega
      · exact absurd hstop (by simp)
  | expire t _ _ ih =>
      obtain ⟨ha, hb, hc⟩ := ih
      refine ⟨?_, ?_, ?_⟩ <;> simp [Timer.expire, hc] <;> omega

/-- C8: a timer constructed with a positive interval `i` keeps
`remaining_ms` within `[0, i]` along every assertion-respecting trace of
`start`/`stop` calls (with a monotonic clock) and natural expiries. -/
theorem C8_remaining_in_range (i : Int) (t : Timer) (hpos : 0 < i)
    (hr : Timer.Reach i t) :
    0 ≤ t.remaining_ms ∧ t.remaining_ms ≤ i := by
  obtain ⟨ha, hb, hc⟩ := timer_reach_bounds i t hpos hr
  exact ⟨ha, hc ▸ hb⟩

theorem C8_witness :
    0 ≤ (Timer.new 5).remaining_ms ∧ (Timer.new 5).remaining_ms ≤ 5 :=
  C8_remaining_in_range 5 (Timer.new 5) (by decide) Timer.Reach.new

/-- C2: `_on_idle_end` — when the break timer is running it is stopped,
and the work timer is restarted without reset (keeping its remaining time)
exactly when `work_timer_was_running`; when the break timer is not running
the work timer is started with reset (full interval).  The hypothesis that
the work timer is stopped holds in every reachable idle state. -/
theorem C2_idle_end_behavior (s : BreakReminder) (wasW : Bool) (now : Int)
    (hw : s.work_timer.is_running = false) :
    ∃ s', s.onIdleEnd wasW now = some s' ∧
      (s.break_timer.is_running = true →
        s'.break_timer.is_running = false ∧
        (wasW = true → s'.work_timer.is_running = true ∧
          s'.work_timer.remaining_ms = s.work_timer.remaining_ms) ∧
        (wasW = false → s'.work_timer = s.work_timer)) ∧
      (s.break_timer.is_running = false →
        s'.work_timer.is_running = true ∧
        s'.work_timer.remaining_ms = s.work_timer.interval_ms) := by
  cases hbk : s.break_timer.is_running <;> cases wasW <;>
    simp_all [BreakReminder.onIdleEnd, Timer.stop, Timer.start, Timer.is_running]

theorem C2_witness :
    ({ work_timer := Timer.new 10
       break_timer := { interval_ms := 3, start_timestamp_ms := some 0,
                        remaining_ms := 3, source := true }
       postpone_timer := Timer.new 5
       prompt_visible := false
       is_idle := true
       was_working := true } : BreakReminder).work_timer.is_running = false ∧
    ∃ s', ({ work_timer := Timer.new 10
             break_timer := { interval_ms := 3, start_timestamp_ms := some 0,
                              remaining_ms := 3, source := true }
             postpone_timer := Timer.new 5
             prompt_visible := false
             is_idle := true
             was_working := true } : BreakReminder).onIdleEnd true 1 = some s' ∧
      s'.break_timer.is_running = false ∧
      s'.work_timer.is_running = true ∧
      s'.work_timer.remaining_ms = 10 := by
  refine ⟨rfl, ?_⟩
  obtain ⟨s', h1, h2, _⟩ := C2_idle_end_behavior
    { work_timer := Timer.new 10
      break_timer := { interval_ms := 3, start_timestamp_ms := some 0,
                       remaining_ms := 3, source := true }
      postpone_timer := Timer.new 5
      prompt_visible := false
      is_idle := true
      was_working := true } true 1 rfl
  obtain ⟨hb, hwork, _⟩ := h2 rfl
  obtain ⟨hrun, hrem⟩ := hwork rfl
  exact ⟨s', h1, hb, hrun, hrem⟩

/-- C3: `_on_idle_start` — records whether the work timer was running as
the watch context `was_working`, stops the work timer if (and only if) it
was running (leaving it exactly as `Timer.stop` leaves it, untouched
afterwards), starts the break timer with reset to its full interval, and
registers the one-shot active watch (`is_idle = true`) carrying that
context. -/
theorem C3_idle_start_behavior (s : BreakReminder) (now : Int)
    (hb : s.break_timer.is_running = false) :
    ∃ s', s.onIdleStart now = some s' ∧
      s'.was_working = s.work_timer.is_running ∧
      s'.is_idle = true ∧
      s'.work_timer.is_running = false ∧
      (s.work_timer.is_running = true →
        s.work_timer.stop now = some s'.work_timer) ∧
      (s.work_timer.is_running = false → s'.work_timer = s.work_timer) ∧
      s'.break_timer.is_running = true ∧
      s'.break_timer.remaining_ms = s.break_timer.interval_ms := by
  cases hw : s.work_timer.is_running <;>
    simp_all [BreakReminder.onIdleStart, Timer.stop, Timer.start, Timer.is_running]

theorem C3_witness :
    ({ work_timer := { interval_ms := 10, start_timestamp_ms := some 0,
                       remaining_ms := 10, source := true }
       break_timer := Timer.new 3
       postpone_timer := Timer.new 5
       prompt_visible := false
       is_idle := false
       was_working := false } : BreakReminder).break_timer.is_running = false ∧
    ∃ s', ({ work_timer := { interval_ms := 10, start_timestamp_ms := some 0,
                             remaining_ms := 10, source := true }
             break_timer := Timer.new 3
             postpone_timer := Timer.new 5
             prompt_visible := false
             is_idle := false
             was_working := false } : BreakReminder).onIdleStart 4 = some s' ∧
      s'.was_working = true ∧
      s'.is_idle = true ∧
      s'.work_timer.is_running = false ∧
      s'.break_timer.is_running = true ∧
      s'.break_timer.remaining_ms = 3 := by
  obtain ⟨s', h1, h2, h3, h4, _, _, h7, h8⟩ := C3_idle_start_behavior
    { work_timer := { interval_ms := 10, start_timestamp_ms := some 0,
                      remaining_ms := 10, source := true }
      break_timer := Timer.new 3
      postpone_timer := Timer.new 5
      prompt_visible := false
      is_idle := false
      was_working := false } 4 rfl
  exact ⟨rfl, s', h1, h2, h3, h4, h7, h8⟩

/-- C4: `_on_break_timer_expired` — closes the prompt and stops the
postpone timer exactly when it is running; the work timer, break timer,
idle flag and watch context are all left unchanged (in particular a
stopped work timer stays stopped). -/
theorem C4_break_expiry_frame (s : BreakReminder) (now : Int) :
    ∃ s', s.onBreakTimerExpired now = some s' ∧
      s'.prompt_visible = false ∧
      s'.postpone_timer.is_running = false ∧
      (s.postpone_timer.is_running = false → s'.postpone_timer = s.postpone_timer) ∧
      (s.postpone_timer.is_running = true →
        s.postpone_timer.stop now = some s'.postpone_timer) ∧
      s'.work_timer = s.work_timer ∧
      s'.break_timer = s.break_timer ∧
      s'.is_idle = s.is_idle ∧
      s'.was_working = s.was_working := by
  cases hp : s.postpone_timer.is_running <;>
    simp_all [BreakReminder.onBreakTimerExpired, Timer.stop, Timer.is_running]

theorem C4_witness :
    ∃ s', ({ work_timer := Timer.new 10
             break_timer := Timer.new 3
             postpone_timer := { interval_ms := 5, start_timestamp_ms := some 0,
                                 remaining_ms := 5, source := true }
             prompt_visible := false
             is_idle := true
             was_working := false } : BreakReminder).onBreakTimerExpired 2 = some s' ∧
      s'.prompt_visible = false ∧
      s'.postpone_timer.is_running = false ∧
      s'.work_timer = Timer.new 10 ∧
      s'.is_idle = true := by
  obtain ⟨s', h1, h2, h3, _, _, h6, _, h8, _⟩ := C4_break_expiry_frame
    { work_timer := Timer.new 10
      break_timer := Timer.new 3
      postpone_timer := { interval_ms := 5, start_timestamp_ms := some 0,
                          remaining_ms := 5, source := true }
      prompt_visible := false
      is_idle := true
      was_working := false } 2
  exact ⟨s', h1, h2, h3, h6, h8⟩

/-- C5: the postpone timer is started with reset (full interval) exactly
when the notification is closed with the user-dismissed reason (2) or the
postpone action is invoked; a closure reported with any other reason
leaves the whole state (in particular the postpone timer) unchanged. -/
theorem C5_postpone_exactly_on_dismiss_or_action (s : BreakReminder)
    (reason now : Int) (hp : s.postpone_timer.is_running = false) :
    (reason = 2 →
      ∃ s', s.onNotificationClosed reason now = some s' ∧
        s'.postpone_timer.is_running = true ∧
        s'.postpone_timer.remaining_ms = s.postpone_timer.interval_ms) ∧
    (reason ≠ 2 → s.onNotificationClosed reason now = some s) ∧
    (∃ s', s.onNotificationPostponed now = some s' ∧
      s'.postpone_timer.is_running = true ∧
      s'.postpone_timer.remaining_ms = s.postpone_timer.interval_ms ∧
      s'.prompt_visible = false) := by
  refine ⟨?_, ?_, ?_⟩
  · intro hr
    simp_all [BreakReminder.onNotificationClosed, BreakReminder.postponeBreak,
      Timer.start, Timer.is_running]
  · intro hr
    simp_all [BreakReminder.onNotificationClosed]
  · simp_all [BreakReminder.onNotificationPostponed, BreakReminder.postponeBreak,
      Timer.start, Timer.is_running]

theorem C5_witness :
    (∃ s', ({ work_timer := Timer.new 10
              break_timer := Timer.new 3
              postpone_timer := Timer.new 5
              prompt_visible := true
              is_idle := false
              was_working := false } : BreakReminder).onNotificationClosed 2 7 = some s' ∧
      s'.postpone_timer.is_running = true ∧
      s'.postpone_timer.remaining_ms = 5) ∧
    ({ work_timer := Timer.new 10
       break_timer := Timer.new 3
       postpone_timer := Timer.new 5
       prompt_visible := true
       is_idle := false
       was_working := false } : BreakReminder).onNotificationClosed 3 7 =
      some { work_timer := Timer.new 10
             break_timer := Timer.new 3
             postpone_timer := Timer.new 5
             prompt_visible := true
             is_idle := false
             was_working := false } := by
  obtain ⟨h1, h2, _⟩ := C5_postpone_exactly_on_dismiss_or_action
    { work_timer := Timer.new 10
      break_timer := Timer.new 3
      postpone_timer := Timer.new 5
      prompt_visible := true
      is_idle := false
      was_working := false } 2 7 rfl
  obtain ⟨s', ha, hb, hc⟩ := h1 rfl
  refine ⟨⟨s', ha, hb, hc⟩, ?_⟩
  exact (C5_postpone_exactly_on_dismiss_or_action
    { work_timer := Timer.new 10
      break_timer := Timer.new 3
      postpone_timer := Timer.new 5
      prompt_visible := true
      is_idle := false
      was_working := false } 3 7 rfl).2.1 (by decide)

/-- C10: the idle-start and idle-end handlers never touch the postpone
timer; consequently, in any idle state where the postpone timer is
running, the postpone-expiry event is feasible and re-shows the prompt
while still idle. -/
theorem C10_idle_handlers_postpone_frame (s : BreakReminder) (now : Int) :
    (∀ s', s.onIdleStart now = some s' → s'.postpone_timer = s.postpone_timer) ∧
    (∀ wasW s', s.onIdleEnd wasW now = some s' →
      s'.postpone_timer = s.postpone_timer) ∧
    (s.is_idle = true → s.postpone_timer.is_running = true →
      feasible s Event.postponeExpiry ∧
      ∃ s', step s Event.postponeExpiry = some s' ∧
        s'.prompt_visible = true ∧ s'.is_idle = true ∧
        s'.work_timer = s.work_timer ∧ s'.break_timer = s.break_timer) := by
  refine ⟨?_, ?_, ?_⟩
  · intro s' h
    cases hw : s.work_timer.is_running <;> cases hb : s.break_timer.is_running <;>
      simp_all [BreakReminder.onIdleStart, Timer.stop, Timer.start, Timer.is_running] <;>
      (subst h; rfl)
  · intro wasW s' h
    cases hb : s.break_timer.is_running <;> cases wasW <;>
      cases hw : s.work_timer.is_running <;>
      simp_all [BreakReminder.onIdleEnd, Timer.stop, Timer.start, Timer.is_running] <;>
      (subst h; rfl)
  · intro hid hp
    refine ⟨hp, ?_⟩
    simp [step, BreakReminder.onPostponeExpired, hid]

theorem C10_witness :
    ∀ s', ({ work_timer := Timer.new 10
             break_timer := { interval_ms := 3, start_timestamp_ms := some 0,
                              remaining_ms := 3, source := true }
             postpone_timer := { interval_ms := 5, start_timestamp_ms := some 0,
                                 remaining_ms := 5, source := true }
             prompt_visible := false
             is_idle := true
             was_working := false } : BreakReminder).onIdleEnd false 1 = some s' →
      s'.postpone_timer = { interval_ms := 5, start_timestamp_ms := some 0,
                            remaining_ms := 5, source := true } :=
  (C10_idle_handlers_postpone_frame
    { work_timer := Timer.new 10
      break_timer := { interval_ms := 3, start_timestamp_ms := some 0,
                       remaining_ms := 3, source := true }
      postpone_timer := { interval_ms := 5, start_timestamp_ms := some 0,
                          remaining_ms := 5, source := true }
      prompt_visible := false
      is_idle := true
      was_working := false } 1).2.1 false

theorem schedInv_init (b w p i now : Int) (s : BreakReminder)
    (h : BreakReminder.init b w p i now = some s) : SchedInv s := by
  rw [BreakReminder.init_eq_some] at h
  cases h
  simp [SchedInv, Timer.new, Timer.is_running]

set_option maxHeartbeats 1000000 in
theorem schedInv_step (s : BreakReminder) (e : Event)
    (hInv : SchedInv s) (hf : feasible s e) :
    ∃ s', step s e = some s' ∧ SchedInv s' := by
  obtain ⟨⟨w1, w2, w3, w4⟩, ⟨b1, b2, b3, b4⟩, ⟨p1, p2, p3, p4⟩, pv, idl, ww⟩ := s
  obtain ⟨h1, h2, h3, h4, h5, h6⟩ := hInv
  cases e with
  | workExpiry =>
      cases w4 <;> cases b4 <;> cases p4 <;> cases pv <;> cases idl <;> cases ww <;>
      simp_all [step, feasible, SchedInv, BreakReminder.onWorkTimerExpired,
        Timer.expire, Timer.is_running]
  | breakExpiry now =>
      cases w4 <;> cases b4 <;> cases p4 <;> cases pv <;> cases idl <;> cases ww <;>
      simp_all [step, feasible, SchedInv, BreakReminder.onBreakTimerExpired,
        Timer.expire, Timer.stop, Timer.is_running]
  | postponeExpiry =>
      cases w4 <;> cases b4 <;> cases p4 <;> cases pv <;> cases idl <;> cases ww <;>
      simp_all [step, feasible, SchedInv, BreakReminder.onPostponeExpired,
        Timer.expire, Timer.is_running]
  | idleStart now =>
      cases w4 <;> cases b4 <;> cases p4 <;> cases pv <;> cases idl <;> cases ww <;>
      simp_all [step, feasible, SchedInv, BreakReminder.onIdleStart,
        Timer.stop, Timer.start, Timer.is_running]
  | idleEnd now =>
      cases w4 <;> cases b4 <;> cases p4 <;> cases pv <;> cases idl <;> cases ww <;>
      simp_all [step, feasible, SchedInv, BreakReminder.onIdleEnd,
        Timer.stop, Timer.start, Timer.is_running]
  | notifClosed reason now =>
      rcases eq_or_ne reason 2 with hr | hr <;>
      cases w4 <;> cases b4 <;> cases p4 <;> cases pv <;> cases idl <;> cases ww <;>
      simp_all [step, feasible, SchedInv, BreakReminder.onNotificationClosed,
        BreakReminder.postponeBreak, Timer.start, Timer.is_running]
  | postponeAction now =>
      cases w4 <;> cases b4 <;> cases p4 <;> cases pv <;> cases idl <;> cases ww <;>
      simp_all [step, feasible, SchedInv, BreakReminder.onNotificationPostponed,
        BreakReminder.postponeBreak, Timer.start, Timer.is_running]

theorem reachable_schedInv (s : BreakReminder) (h : Reachable s) : SchedInv s := by
  induction h with
  | base b w p i now s h => exact schedInv_init b w p i now s h
  | step s e s' _ hfeas hstep ih =>
      obtain ⟨s'', hs, hinv⟩ := schedInv_step s e ih hfeas
      rw [hstep] at hs
      cases hs
      exact hinv

/-- C6: in every scheduler state reachable from `__init__` under strictly
alternating idle-start/idle-end events (and physically possible timer and
notification events), every feasible event's handler runs to completion:
no `Timer.start`/`Timer.stop` assertion is ever violated (`step` never
returns `none`, which is the model of an assertion failure). -/
theorem C6_no_contract_violation (s : BreakReminder) (e : Event)
    (hr : Reachable s) (hf : feasible s e) :
    (step s e).isSome = true := by
  obtain ⟨s', hs, _⟩ := schedInv_step s e (reachable_schedInv s hr) hf
  rw [hs]
  rfl

theorem C6_witness :
    (step { work_timer := { interval_ms := 55, start_timestamp_ms := some 0,
                            remaining_ms := 55, source := true }
            break_timer := Timer.new (5 - 2)
            postpone_timer := Timer.new 5
            prompt_visible := false
            is_idle := false
            was_working := false } Event.workExpiry).isSome = true :=
  C6_no_contract_violation _ Event.workExpiry
    (Reachable.base 5 55 5 2 0 _ (BreakReminder.init_eq_some 5 55 5 2 0))
    (by decide)

/-- C9: in every reachable scheduler state the work timer and the
break-credit timer are never both running. -/
theorem C9_work_break_mutual_exclusion (s : BreakReminder)
    (hr : Reachable s) :
    ¬(s.work_timer.is_running = true ∧ s.break_timer.is_running = true) := by
  obtain ⟨h1, h2, _⟩ := reachable_schedInv s hr
  rintro ⟨hw, hb⟩
  rw [h1 (h2 hb)] at hw
  exact Bool.false_ne_true hw

theorem C9_witness :
    ¬(({ work_timer := { interval_ms := 55, start_timestamp_ms := some 0,
                         remaining_ms := 55, source := true }
         break_timer := Timer.new (5 - 2)
         postpone_timer := Timer.new 5
         prompt_visible := false
         is_idle := false
         was_working := false } : BreakReminder).work_timer.is_running = true ∧
      ({ work_timer := { interval_ms := 55, start_timestamp_ms := some 0,
                         remaining_ms := 55, source := true }
         break_timer := Timer.new (5 - 2)
         postpone_timer := Timer.new 5
         prompt_visible := false
         is_idle := false
         was_working := false } : BreakReminder).break_timer.is_running = true) :=
  C9_work_break_mutual_exclusion _
    (Reachable.base 5 55 5 2 0 _ (BreakReminder.init_eq_some 5 55 5 2 0))
